import Mathlib

/-!
# Verification of the order/payment lifecycle core of the organic-store app

Shallow embedding of the order/payment state machine of the storefront:
the data model (Product, Cart, CartItem, Order, OrderItem), order creation
(`POST /api/orders/create`), payment verification
(`POST /api/payments/verify`), the admin status transition
(`PATCH /api/admin/orders/[orderId]`), the two user cancellation handlers
(`POST /api/orders/[orderId]/cancel`, Supabase and Prisma variants), and
the cart merge (`POST /api/cart/merge`).

The database is modelled as lists of records; a Prisma/Supabase transaction
is modelled as a function from the database state to either a fully updated
state (commit) or the unchanged state (rollback).  External collaborators
(payment gateway, authenticator) are modelled as oracle arguments: the
result of the signature check and the independently fetched payment record
are inputs of the verification function.
-/

namespace OrganicStore

/-- The `OrderStatus` enum of the Prisma schema. -/
inductive OrderStatus where
  | ORDER_CREATED
  | PAYMENT_PENDING
  | PAYMENT_SUCCESS
  | PAYMENT_FAILED
  | ORDER_CONFIRMED
  | SHIPPED
  | DELIVERED
  | CANCELLED
deriving DecidableEq, Repr

/-- A `Product` row: price in paise, optional discount percent, stock. -/
structure Product where
  id : String
  name : String
  price : Int
  discountPercent : Option Int
  stock : Int
  isActive : Bool
  category : String
deriving DecidableEq, Repr

/-- A `Cart` row: one cart per user. -/
structure Cart where
  id : String
  userId : String
deriving DecidableEq, Repr

/-- A `CartItem` row. -/
structure CartItem where
  id : String
  cartId : String
  productId : String
  quantity : Int
deriving DecidableEq, Repr

/-- An `OrderItem` row: snapshots of name, unit price, discount, final
price taken at order-creation time.  The Supabase migration variant of the
cancellation handler also reads optional `variantId`/`sizeGrams` fields. -/
structure OrderItem where
  orderId : String
  productId : String
  productName : String
  unitPrice : Int
  discountPercent : Option Int
  finalPrice : Int
  quantity : Int
  variantId : Option String
  sizeGrams : Option Int
deriving DecidableEq, Repr

/-- An `Order` row. -/
structure Order where
  id : String
  userId : String
  status : OrderStatus
  totalAmount : Int
  currency : String
  razorpayOrderId : Option String
  razorpayPaymentId : Option String
  razorpaySignature : Option String
  paidAt : Option Int
deriving DecidableEq, Repr

/-- A `ProductVariant` row (read by the Supabase cancellation handler). -/
structure ProductVariant where
  id : String
  productId : String
  sizeGrams : Int
  stock : Int
deriving DecidableEq, Repr

/-- The persistent store: one list per table. -/
structure DB where
  products : List Product
  variants : List ProductVariant
  carts : List Cart
  cartItems : List CartItem
  orders : List Order
  orderItems : List OrderItem
deriving DecidableEq, Repr

/-- JavaScript `Math.round` on a (non-negative in all uses) rational:
round half away from zero is floor of `x + 1/2` for `x ≥ 0`. -/
def jsRound (q : ℚ) : Int := ⌊q + 1/2⌋

/-- `calculateDiscountedPrice` from `src/lib/pricing.ts`: if the discount
is `0`, `null` or `undefined` (all falsy) return the original price, else
`Math.round(price * (1 - discountPercent / 100))`. -/
def calculateDiscountedPrice (price : Int) (discountPercent : Option Int) : Int :=
  match discountPercent with
  | none => price
  | some d => if d = 0 then price else jsRound ((price : ℚ) * (1 - (d : ℚ) / 100))

example : calculateDiscountedPrice 10000 (some 15) = 8500 := by
  norm_num [calculateDiscountedPrice, jsRound]
example : calculateDiscountedPrice 10000 (some 10) = 9000 := by
  norm_num [calculateDiscountedPrice, jsRound]
example : calculateDiscountedPrice 10000 none = 10000 := by decide
example : calculateDiscountedPrice 10000 (some 100) = 0 := by
  norm_num [calculateDiscountedPrice, jsRound]

/-! ## Order creation (`POST /api/orders/create`)

Embedding of the handler body after authentication, rate limiting and
request-shape validation: the handler looks up the caller's cart, checks
that every selected cart-item id belongs to it, validates quantities,
checks all selected products exist and are active, then inside one
transaction re-reads the products, recomputes the discounted prices and
the total, validates stock, and inserts the order with its item snapshots;
after the commit it calls the payment gateway and stores the returned
gateway order id.  The gateway is an oracle argument: `gatewayOrderId` is
`some id` when `createRazorpayOrder` succeeds and `none` when it throws. -/

/-- Result of the order-creation endpoint. -/
inductive CreateOrderResult where
  | success (razorpayOrderId : Option String) (orderId : String) (amount : Int)
      (warning : Bool)
  | error (message : String) (code : Nat)
deriving DecidableEq, Repr

/-- The in-transaction recomputation loop: for each selected cart item,
find its product among the re-read rows, recompute the discounted unit
price with the latest discount, and build the `OrderItem` snapshot
(`unitPrice`, `discountPercent`, `finalPrice`, `quantity`).  `none` models
the `Product not found` throw that aborts the transaction. -/
def buildOrderItems (productsInTx : List Product) (orderId : String) :
    List CartItem → Option (List OrderItem)
  | [] => some []
  | ci :: rest =>
    match productsInTx.find? (fun p => p.id == ci.productId) with
    | none => none
    | some product =>
      let discountedPriceInPaise := calculateDiscountedPrice product.price product.discountPercent
      let finalPrice := discountedPriceInPaise * ci.quantity
      match buildOrderItems productsInTx orderId rest with
      | none => none
      | some items =>
        some ({ orderId := orderId
                productId := product.id
                productName := product.name
                unitPrice := discountedPriceInPaise
                discountPercent := product.discountPercent
                finalPrice := finalPrice
                quantity := ci.quantity
                variantId := none
                sizeGrams := none } :: items)

/-- Failure of an in-transaction stock validation loop. -/
inductive StockFail where
  | productMissing (productId : String)
  | insufficient (productName : String)
deriving DecidableEq, Repr

/-- The in-transaction stock validation loop of order creation: only
validates `product.stock >= quantity`, never deducts. -/
def stockCheck (productsInTx : List Product) : List CartItem → Option StockFail
  | [] => none
  | ci :: rest =>
    match productsInTx.find? (fun p => p.id == ci.productId) with
    | none => some (.productMissing ci.productId)
    | some product =>
      if product.stock < ci.quantity then some (.insufficient product.name)
      else stockCheck productsInTx rest

/-- The rows of the caller's cart. -/
def cartItemsOf (db : DB) (cart : Cart) : List CartItem :=
  db.cartItems.filter (fun ci => ci.cartId == cart.id)

/-- The submitted cart-item ids that do not belong to the caller's cart. -/
def invalidIdsOf (db : DB) (cart : Cart) (selectedCartItemIds : List String) :
    List String :=
  selectedCartItemIds.filter
    (fun id => !((cartItemsOf db cart).map (fun item => item.id)).contains id)

/-- The cart rows selected for checkout. -/
def selectedItemsOf (db : DB) (cart : Cart) (selectedCartItemIds : List String) :
    List CartItem :=
  (cartItemsOf db cart).filter (fun item => selectedCartItemIds.contains item.id)

/-- The active products among the given ids (`findMany` with
`isActive: true`). -/
def activeProductsOf (db : DB) (productIds : List String) : List Product :=
  db.products.filter (fun p => productIds.contains p.id && p.isActive)

/-- The order-creation endpoint.  `newOrderId` stands for the id the store
generates for the inserted order; `gatewayOrderId` is the gateway oracle. -/
def createOrder (db : DB) (userId : String) (selectedCartItemIds : List String)
    (newOrderId : String) (gatewayOrderId : Option String) :
    CreateOrderResult × DB :=
  match db.carts.find? (fun c => c.userId == userId) with
  | none => (.error "Cart not found" 404, db)
  | some cart =>
    if 0 < (invalidIdsOf db cart selectedCartItemIds).length then
      (.error "Some selected items do not belong to your cart" 400, db)
    else
      let selectedCartItems := selectedItemsOf db cart selectedCartItemIds
      if selectedCartItems.length = 0 then (.error "No valid items selected" 400, db)
      else if selectedCartItems.any (fun item => item.quantity < 1 || 99 < item.quantity) then
        (.error "Invalid quantity" 400, db)
      else
        let productIds := selectedCartItems.map (fun item => item.productId)
        let products := activeProductsOf db productIds
        if products.length != productIds.length then
          (.error "Some products are not available" 400, db)
        else
          -- transaction: re-read product rows, recompute prices, validate stock, insert
          let productsInTx := activeProductsOf db productIds
          match buildOrderItems productsInTx newOrderId selectedCartItems with
          | none => (.error "Product not found" 400, db)
          | some orderItemsData =>
            let totalAmount := (orderItemsData.map (fun item => item.finalPrice)).sum
            match stockCheck productsInTx selectedCartItems with
            | some (.productMissing _) => (.error "Product not found" 400, db)
            | some (.insufficient name) => (.error ("Insufficient stock for " ++ name) 400, db)
            | none =>
              let order : Order :=
                { id := newOrderId
                  userId := userId
                  status := .PAYMENT_PENDING
                  totalAmount := totalAmount
                  currency := "INR"
                  razorpayOrderId := none
                  razorpayPaymentId := none
                  razorpaySignature := none
                  paidAt := none }
              let db1 : DB :=
                { db with orders := db.orders ++ [order]
                          orderItems := db.orderItems ++ orderItemsData }
              -- after the commit: `totalAmount <= 0` throws `Invalid order amount`,
              -- reaching the outer catch as a generic 500; the order stays committed
              if totalAmount ≤ 0 then (.error "Failed to create order" 500, db1)
              else
                match gatewayOrderId with
                | some gid =>
                  let db2 : DB :=
                    { db1 with orders := db1.orders.map (fun o =>
                        if o.id == newOrderId then { o with razorpayOrderId := some gid } else o) }
                  (.success (some gid) newOrderId totalAmount false, db2)
                | none => (.success none newOrderId totalAmount true, db1)

/-! ## Payment verification (`POST /api/payments/verify`)

Embedding of the handler body after authentication, rate limiting and
body validation.  The gateway collaborators are oracle arguments:
`sigValid` is the result of `verifyRazorpaySignature` on the submitted
triple, and `fetchedPayment` is what `getRazorpayPayment` returns for the
submitted payment id (`none` when the payment is not found). -/

/-- The payment record independently fetched from the gateway's API. -/
structure RazorpayPayment where
  status : String
  order_id : String
  amount : Int
deriving DecidableEq, Repr

/-- Result of the payment-verification endpoint.  Both the idempotent
short-circuit and the confirmation path return the success variant, with
the handler's distinct messages. -/
inductive VerifyResult where
  | success (orderId : String) (message : String)
  | error (message : String) (code : Nat)
deriving DecidableEq, Repr

/-- Failure of the in-transaction stock re-validation loop of payment
verification.  A missing product throws a plain error (transaction
rollback, generic 500); an insufficient stock throws the tracked
`stockError` that afterwards marks the order `PAYMENT_FAILED`. -/
inductive RevalFail where
  | productMissing (productId : String)
  | insufficient (item : OrderItem) (available : Int)
deriving DecidableEq, Repr

/-- STEP 1 of the verification transaction: for each order item check the
product exists and `product.stock >= quantity` (first failure wins). -/
def revalidateStock (products : List Product) : List OrderItem → Option RevalFail
  | [] => none
  | item :: rest =>
    match products.find? (fun p => p.id == item.productId) with
    | none => some (.productMissing item.productId)
    | some product =>
      if product.stock < item.quantity then some (.insufficient item product.stock)
      else revalidateStock products rest

/-- STEP 2 of the verification transaction: decrement one product's stock. -/
def decrementStock (products : List Product) (productId : String) (qty : Int) :
    List Product :=
  products.map (fun p => if p.id == productId then { p with stock := p.stock - qty } else p)

/-- Outcome of the verification transaction. -/
inductive TxOutcome where
  | committed (db : DB)
  | stockFail (item : OrderItem) (available : Int)
  | otherFail (message : String)
deriving DecidableEq, Repr

/-- The verification transaction: re-read the order (idempotency
re-check), re-validate stock for every order item, then decrement stock,
flip the status to `ORDER_CONFIRMED` storing the payment metadata, and
delete from the user's cart exactly the cart items whose product id occurs
among the order's items. -/
def verifyTransaction (db : DB) (order : Order) (razorpayPaymentId razorpaySignature : String)
    (now : Int) : TxOutcome :=
  match db.orders.find? (fun o => o.id == order.id) with
  | none => .otherFail "Order not found"
  | some currentOrder =>
    if currentOrder.status = .ORDER_CONFIRMED then
      -- idempotency: transaction completes with no changes made
      .committed db
    else if currentOrder.status ≠ .PAYMENT_PENDING then
      .otherFail "Order status is not PAYMENT_PENDING"
    else
      let items := db.orderItems.filter (fun item => item.orderId == order.id)
      match revalidateStock db.products items with
      | some (.productMissing pid) => .otherFail ("Product not found: " ++ pid)
      | some (.insufficient item available) => .stockFail item available
      | none =>
        let products' := items.foldl
          (fun ps item => decrementStock ps item.productId item.quantity) db.products
        let orders' := db.orders.map (fun o =>
          if o.id == order.id then
            { o with status := .ORDER_CONFIRMED
                     razorpayPaymentId := some razorpayPaymentId
                     razorpaySignature := some razorpaySignature
                     paidAt := some now }
          else o)
        let cartItems' :=
          match db.carts.find? (fun c => c.userId == order.userId) with
          | none => db.cartItems
          | some userCart =>
            let productIds := items.map (fun item => item.productId)
            db.cartItems.filter (fun ci =>
              !(ci.cartId == userCart.id && productIds.contains ci.productId))
        .committed { db with products := products', orders := orders', cartItems := cartItems' }

/-- The payment-verification endpoint.  The caller submits the claimed
gateway order id, payment id and signature together with the internal
order id; `now` stands for the `paidAt` timestamp. -/
def verifyPayment (db : DB) (userId orderId razorpayOrderId razorpayPaymentId razorpaySignature : String)
    (sigValid : Bool) (fetchedPayment : Option RazorpayPayment) (now : Int) :
    VerifyResult × DB :=
  match db.orders.find? (fun o => o.id == orderId && o.userId == userId) with
  | none => (.error "Order not found" 404, db)
  | some order =>
    if order.razorpayOrderId ≠ some razorpayOrderId then
      (.error "Razorpay order ID mismatch" 400, db)
    else if order.status = .ORDER_CONFIRMED then
      (.success order.id "Order already confirmed", db)
    else if order.status ≠ .PAYMENT_PENDING then
      (.error "Order cannot be verified" 400, db)
    else if !sigValid then
      (.error "Payment verification failed. Invalid signature." 400, db)
    else
      match fetchedPayment with
      | none => (.error "Payment not found in Razorpay" 400, db)
      | some payment =>
        if payment.status ≠ "captured" then (.error "Payment not successful" 400, db)
        else if payment.order_id ≠ razorpayOrderId then
          (.error "Payment order ID mismatch" 400, db)
        else if payment.amount ≠ order.totalAmount then
          (.error "Payment amount mismatch" 400, db)
        else
          match verifyTransaction db order razorpayPaymentId razorpaySignature now with
          | .committed db' =>
            (.success order.id "Payment verified successfully. Order confirmed.", db')
          | .stockFail item _ =>
            -- transaction rolled back; mark the order PAYMENT_FAILED outside it
            (.error ("Insufficient stock for " ++ item.productName) 400,
             { db with orders := db.orders.map (fun o =>
                 if o.id == order.id then { o with status := .PAYMENT_FAILED } else o) })
          | .otherFail _ => (.error "Payment verification failed" 500, db)

/-! ## Admin status transition (`PATCH /api/admin/orders/[orderId]`) -/

/-- Result of the admin order-update and the cancellation endpoints. -/
inductive StatusResult where
  | success (status : OrderStatus)
  | error (message : String) (code : Nat)
deriving DecidableEq, Repr

/-- Increment one product's stock. -/
def incrementStock (products : List Product) (productId : String) (qty : Int) :
    List Product :=
  products.map (fun p => if p.id == productId then { p with stock := p.stock + qty } else p)

/-- The stock-restore loop of the admin cancellation transaction:
`tx.product.update` throws (rolling the transaction back) when the product
row is missing. -/
def restoreStockLoop (products : List Product) : List OrderItem → Option (List Product)
  | [] => some products
  | item :: rest =>
    if products.any (fun p => p.id == item.productId) then
      restoreStockLoop (incrementStock products item.productId item.quantity) rest
    else none

/-- The admin order-update endpoint, after admin authentication and body
validation (`newStatus` is the uppercased submitted status).  Allowed
targets are `SHIPPED`, `DELIVERED` and `CANCELLED`; `SHIPPED` requires
`ORDER_CONFIRMED`, `DELIVERED` requires `SHIPPED`, and `CANCELLED`
requires `ORDER_CONFIRMED` or `SHIPPED` and then restores stock inside the
transaction before flipping the status. -/
def adminUpdateOrderStatus (db : DB) (orderId : String) (newStatus : OrderStatus) :
    StatusResult × DB :=
  if !([OrderStatus.SHIPPED, .DELIVERED, .CANCELLED].contains newStatus) then
    (.error "Invalid status" 400, db)
  else
    match db.orders.find? (fun o => o.id == orderId) with
    | none => (.error "Order not found" 404, db)
    | some order =>
      if newStatus = .SHIPPED ∧ order.status ≠ .ORDER_CONFIRMED then
        (.error "Cannot mark order as SHIPPED" 400, db)
      else if newStatus = .DELIVERED ∧ order.status ≠ .SHIPPED then
        (.error "Cannot mark order as DELIVERED" 400, db)
      else if newStatus = .CANCELLED ∧
          (order.status ≠ .ORDER_CONFIRMED ∧ order.status ≠ .SHIPPED) then
        (.error "Cannot cancel order" 400, db)
      else
        let items := db.orderItems.filter (fun item => item.orderId == order.id)
        if newStatus = .CANCELLED ∧
            (order.status = .ORDER_CONFIRMED ∨ order.status = .SHIPPED) then
          match restoreStockLoop db.products items with
          | none => (.error "Failed to update order" 500, db)
          | some products' =>
            (.success newStatus,
             { db with products := products'
                       orders := db.orders.map (fun o =>
                         if o.id == order.id then { o with status := newStatus } else o) })
        else
          (.success newStatus,
           { db with orders := db.orders.map (fun o =>
               if o.id == order.id then { o with status := newStatus } else o) })

/-! ## User cancellation (`POST /api/orders/[orderId]/cancel`)

The repository carries two implementations of this route.  The Prisma
variant cancels only `PAYMENT_PENDING`/`PAYMENT_FAILED` orders and touches
no stock.  The Supabase-migration variant cancels `PAYMENT_PENDING`,
`PAYMENT_FAILED` and `ORDER_CONFIRMED` orders and restores stock for every
order item before flipping the status; per-item failures (missing product
or variant row) are logged and skipped.  `hasVariants` is imported from
`@/lib/products` but not defined there, so it is passed as a function
argument. -/

/-- The Prisma variant of the user cancellation endpoint. -/
def cancelOrderUser (db : DB) (userId orderId : String) : StatusResult × DB :=
  match db.orders.find? (fun o => o.id == orderId && o.userId == userId) with
  | none => (.error "Order not found" 404, db)
  | some order =>
    if order.status ≠ .PAYMENT_PENDING ∧ order.status ≠ .PAYMENT_FAILED then
      (.error "Order cannot be cancelled" 400, db)
    else
      (.success .CANCELLED,
       { db with orders := db.orders.map (fun o =>
           if o.id == orderId then { o with status := .CANCELLED } else o) })

/-- One iteration of the stock-restore loop of the Supabase cancellation
handler: look the product up (skip the item when missing); when the
product's category uses variants and the item carries a `variantId` or
`sizeGrams`, restore the matching `ProductVariant` row's stock (skip when
no row matches), otherwise re-read and increase the `Product` row's stock. -/
def restoreStockSupabaseStep (hasVariantsFn : String → Bool) (db : DB)
    (item : OrderItem) : DB :=
  match db.products.find? (fun p => p.id == item.productId) with
  | none => db
  | some product =>
    if hasVariantsFn product.category ∧ (item.variantId.isSome ∨ item.sizeGrams.isSome) then
      let variantRow : Option ProductVariant :=
        match item.variantId with
        | some vid =>
          db.variants.find? (fun (v : ProductVariant) =>
            v.productId == item.productId && v.id == vid)
        | none =>
          match item.sizeGrams with
          | some sg =>
            db.variants.find? (fun (v : ProductVariant) =>
              v.productId == item.productId && v.sizeGrams == sg)
          | none => none
      match variantRow with
      | none => db
      | some variant =>
        { db with variants := db.variants.map (fun v =>
            if v.id == variant.id then { v with stock := v.stock + item.quantity } else v) }
    else
      { db with products := db.products.map (fun p =>
          if p.id == item.productId then { p with stock := p.stock + item.quantity } else p) }

/-- The stock-restore loop of the Supabase cancellation handler:
per-item failures are logged and skipped, never aborting the loop. -/
def restoreStockSupabase (hasVariantsFn : String → Bool) (db : DB) :
    List OrderItem → DB
  | [] => db
  | item :: rest =>
    restoreStockSupabase hasVariantsFn (restoreStockSupabaseStep hasVariantsFn db item) rest

/-- The Supabase-migration variant of the user cancellation endpoint. -/
def cancelOrderSupabase (hasVariantsFn : String → Bool) (db : DB) (userId orderId : String) :
    StatusResult × DB :=
  match db.orders.find? (fun o => o.id == orderId && o.userId == userId) with
  | none => (.error "Order not found" 404, db)
  | some order =>
    if !([OrderStatus.PAYMENT_PENDING, .PAYMENT_FAILED, .ORDER_CONFIRMED].contains order.status) then
      (.error "Order cannot be cancelled" 400, db)
    else
      let items := db.orderItems.filter (fun item => item.orderId == orderId)
      let db' := restoreStockSupabase hasVariantsFn db items
      (.success .CANCELLED,
       { db' with orders := db'.orders.map (fun o =>
           if o.id == orderId then { o with status := .CANCELLED } else o) })

/-! ## Cart merge (`POST /api/cart/merge`)

Embedding of the handler body after authentication and rate limiting: the
handler finds (or lazily creates) the caller's cart, then inside one
transaction re-reads the cart's items and folds over the submitted
`(productId, quantity)` pairs.  A pair whose fields fail validation, or
whose product is missing, inactive or out of stock, is skipped silently;
a pair matching an item of the re-read snapshot updates that item's
quantity to `min(snapshot quantity + incoming, 99)`; any other valid pair
inserts a new cart item. -/

/-- A submitted guest-cart pair. -/
structure GuestItem where
  productId : String
  quantity : Int
deriving DecidableEq, Repr

/-- `validateString` on `productId`: non-empty, at most 100 characters. -/
def validProductId (s : String) : Bool := 1 ≤ s.length && s.length ≤ 100

/-- `validateNumber` on `quantity`: an integer in `[1, 99]`. -/
def validQuantity (q : Int) : Bool := 1 ≤ q && q ≤ 99

/-- Processing of one submitted pair against the item list `items`,
with `snapshot` the cart contents re-read at the start of the
transaction and `newId` the id the store would give a freshly inserted
cart item. -/
def mergeGuestItem (products : List Product) (snapshot : List CartItem)
    (cartId newId : String) (g : GuestItem) (items : List CartItem) : List CartItem :=
  if !(validProductId g.productId && validQuantity g.quantity) then items
  else
    match products.find? (fun p => p.id == g.productId && p.isActive && 0 < p.stock) with
    | none => items
    | some _ =>
      match snapshot.find? (fun item => item.productId == g.productId) with
      | some existingItem =>
        let newQuantity := min (existingItem.quantity + g.quantity) 99
        items.map (fun item =>
          if item.id == existingItem.id then { item with quantity := newQuantity } else item)
      | none =>
        items ++ [{ id := newId, cartId := cartId, productId := g.productId,
                    quantity := g.quantity }]

/-- Fresh id for the `n`-th inserted cart item of a merge. -/
def mergeItemId (cartId : String) (n : Nat) : String :=
  cartId ++ "-merge-" ++ toString n

/-- The fold over the submitted pairs. -/
def mergeFold (products : List Product) (snapshot : List CartItem) (cartId : String)
    (n : Nat) : List GuestItem → List CartItem → List CartItem
  | [], items => items
  | g :: rest, items =>
    mergeFold products snapshot cartId (n + 1) rest
      (mergeGuestItem products snapshot cartId (mergeItemId cartId n) g items)

/-- The cart-merge endpoint: find or lazily create the caller's cart, then
run the merge transaction over the re-read snapshot of its items. -/
def mergeCart (db : DB) (userId : String) (guestItems : List GuestItem) : DB :=
  match db.carts.find? (fun c => c.userId == userId) with
  | some cart =>
    let snapshot := db.cartItems.filter (fun item => item.cartId == cart.id)
    { db with cartItems := mergeFold db.products snapshot cart.id 0 guestItems db.cartItems }
  | none =>
    let cart : Cart := { id := "cart_" ++ userId, userId := userId }
    let db0 : DB := { db with carts := db.carts ++ [cart] }
    let snapshot := db0.cartItems.filter (fun item => item.cartId == cart.id)
    { db0 with cartItems := mergeFold db0.products snapshot cart.id 0 guestItems db0.cartItems }

/-! ## Concrete fixtures used by witnesses and counterexamples -/

/-- A product with no discount. -/
def teaProduct : Product :=
  { id := "p1", name := "Tea", price := 500, discountPercent := none,
    stock := 10, isActive := true, category := "grocery" }

/-- A second product, never part of any order in the fixtures. -/
def coffeeProduct : Product :=
  { id := "p2", name := "Coffee", price := 300, discountPercent := none,
    stock := 5, isActive := true, category := "grocery" }

/-- A pending order of two units of `teaProduct`. -/
def pendingOrder : Order :=
  { id := "o1", userId := "u1", status := .PAYMENT_PENDING, totalAmount := 1000,
    currency := "INR", razorpayOrderId := some "rzp1", razorpayPaymentId := none,
    razorpaySignature := none, paidAt := none }

/-- The order item of `pendingOrder`. -/
def teaOrderItem : OrderItem :=
  { orderId := "o1", productId := "p1", productName := "Tea", unitPrice := 500,
    discountPercent := none, finalPrice := 1000, quantity := 2,
    variantId := none, sizeGrams := none }

/-- The cart item for the ordered product. -/
def teaCartItem : CartItem :=
  { id := "ci1", cartId := "c1", productId := "p1", quantity := 2 }

/-- A cart item for a product that is in no order. -/
def coffeeCartItem : CartItem :=
  { id := "ci2", cartId := "c1", productId := "p2", quantity := 1 }

/-- Store state with a pending order and a cart holding the ordered
product plus an unrelated one. -/
def dbPending : DB :=
  { products := [teaProduct, coffeeProduct]
    variants := []
    carts := [{ id := "c1", userId := "u1" }]
    cartItems := [teaCartItem, coffeeCartItem]
    orders := [pendingOrder]
    orderItems := [teaOrderItem] }

/-- The gateway payment record matching `pendingOrder`. -/
def capturedPayment : RazorpayPayment :=
  { status := "captured", order_id := "rzp1", amount := 1000 }

/-- The store after a successful confirmation of `pendingOrder`: tea
stock decremented, order confirmed with payment metadata, the tea cart
item purged, the coffee cart item and the cart retained. -/
def dbAfterSuccess : DB :=
  { products := [{ teaProduct with stock := 8 }, coffeeProduct]
    variants := []
    carts := [{ id := "c1", userId := "u1" }]
    cartItems := [coffeeCartItem]
    orders := [{ pendingOrder with
                 status := OrderStatus.ORDER_CONFIRMED
                 razorpayPaymentId := some "pay1"
                 razorpaySignature := some "sig1"
                 paidAt := some 99 }]
    orderItems := [teaOrderItem] }

example :
    verifyPayment dbPending "u1" "o1" "rzp1" "pay1" "sig1" true (some capturedPayment) 99 =
      (.success "o1" "Payment verified successfully. Order confirmed.", dbAfterSuccess) := by
  decide

/-- Store state for order creation: a cart with one selected item of a
discounted product (Scenario 1 of the spec). -/
def dbScenario1 : DB :=
  { products := [{ id := "P", name := "Millet Mix", price := 10000,
                   discountPercent := some 10, stock := 7, isActive := true,
                   category := "malt" }]
    variants := []
    carts := [{ id := "c1", userId := "u1" }]
    cartItems := [{ id := "ci1", cartId := "c1", productId := "P", quantity := 2 }]
    orders := []
    orderItems := [] }

example : calculateDiscountedPrice 10000 (some 10) = 9000 := by
  norm_num [calculateDiscountedPrice, jsRound]

example :
    (createOrder dbScenario1 "u1" ["ci1"] "oNew" (some "rzpNew")).1 =
      .success (some "rzpNew") "oNew" 18000 false := by
  have h : calculateDiscountedPrice 10000 (some 10) = 9000 := by
    norm_num [calculateDiscountedPrice, jsRound]
  simp [createOrder, dbScenario1, buildOrderItems, stockCheck, h, cartItemsOf,
    invalidIdsOf, selectedItemsOf, activeProductsOf]

/-! ## Helper lemmas -/

/-- Rounding an integer value is the identity. -/
theorem jsRound_intCast (n : Int) : jsRound (n : ℚ) = n := by
  unfold jsRound
  rw [Int.floor_int_add]
  norm_num

/-- `calculateDiscountedPrice` computes exactly the rounded discount
formula, with an absent discount read as `0`. -/
theorem calculateDiscountedPrice_eq_round (price : Int) (d : Option Int) :
    calculateDiscountedPrice price d =
      jsRound ((price : ℚ) * (1 - ((d.getD 0 : Int) : ℚ) / 100)) := by
  cases d with
  | none =>
    simp only [calculateDiscountedPrice, Option.getD_none, Int.cast_zero, zero_div,
      sub_zero, mul_one]
    exact (jsRound_intCast price).symm
  | some k =>
    by_cases hk : k = 0
    · simp only [calculateDiscountedPrice, hk, if_true, Option.getD_some, Int.cast_zero,
        zero_div, sub_zero, mul_one]
      exact (jsRound_intCast price).symm
    · simp [calculateDiscountedPrice, hk]

/-- An absent or zero discount leaves the price unchanged. -/
theorem calculateDiscountedPrice_no_discount (price : Int) (d : Option Int)
    (h : d = none ∨ d = some 0) : calculateDiscountedPrice price d = price := by
  rcases h with h | h <;> simp [calculateDiscountedPrice, h]

/-- Characterization of the in-transaction snapshot loop: each produced
order item snapshots the re-read product's discounted unit price, its
discount percent, the final price `unitPrice * quantity` and the cart
item's quantity. -/
theorem buildOrderItems_spec (ptx : List Product) (oid : String) :
    ∀ (cis : List CartItem) (items : List OrderItem),
      buildOrderItems ptx oid cis = some items →
      List.Forall₂ (fun (ci : CartItem) (item : OrderItem) =>
        ∃ product, ptx.find? (fun p => p.id == ci.productId) = some product ∧
          item.productId = product.id ∧
          item.productName = product.name ∧
          item.unitPrice = calculateDiscountedPrice product.price product.discountPercent ∧
          item.discountPercent = product.discountPercent ∧
          item.finalPrice = item.unitPrice * item.quantity ∧
          item.quantity = ci.quantity ∧
          item.orderId = oid) cis items := by
  intro cis
  induction cis with
  | nil =>
    intro items h
    simp only [buildOrderItems] at h
    cases h
    exact List.Forall₂.nil
  | cons ci rest ih =>
    intro items h
    simp only [buildOrderItems] at h
    cases hfind : ptx.find? (fun p => p.id == ci.productId) with
    | none => rw [hfind] at h; cases h
    | some product =>
      rw [hfind] at h
      cases hrec : buildOrderItems ptx oid rest with
      | none => rw [hrec] at h; cases h
      | some tailItems =>
        rw [hrec] at h
        cases h
        exact List.Forall₂.cons
          ⟨product, hfind, rfl, rfl, rfl, rfl, rfl, rfl, rfl⟩ (ih tailItems hrec)

/-- Every order item produced by `buildOrderItems` carries the new order's
id. -/
theorem buildOrderItems_orderId (ptx : List Product) (oid : String) :
    ∀ (cis : List CartItem) (items : List OrderItem),
      buildOrderItems ptx oid cis = some items →
      ∀ item ∈ items, item.orderId = oid := by
  intro cis
  induction cis with
  | nil =>
    intro items h
    simp only [buildOrderItems] at h
    cases h
    intro item hmem
    cases hmem
  | cons ci rest ih =>
    intro items h
    simp only [buildOrderItems] at h
    cases hfind : ptx.find? (fun p => p.id == ci.productId) with
    | none => rw [hfind] at h; cases h
    | some product =>
      rw [hfind] at h
      cases hrec : buildOrderItems ptx oid rest with
      | none => rw [hrec] at h; cases h
      | some tailItems =>
        rw [hrec] at h
        cases h
        intro item hmem
        rcases List.mem_cons.mp hmem with hhd | htl
        · rw [hhd]
        · exact ih tailItems hrec item htl

/-- The order committed by Scenario 1's order creation. -/
def scenario1Order : Order :=
  { id := "oNew", userId := "u1", status := .PAYMENT_PENDING, totalAmount := 18000,
    currency := "INR", razorpayOrderId := some "rzpNew", razorpayPaymentId := none,
    razorpaySignature := none, paidAt := none }

/-- The order-item snapshot committed by Scenario 1's order creation. -/
def scenario1Item : OrderItem :=
  { orderId := "oNew", productId := "P", productName := "Millet Mix",
    unitPrice := 9000, discountPercent := some 10, finalPrice := 18000,
    quantity := 2, variantId := none, sizeGrams := none }

/-- C5: For every selected cart item at order creation, the snapshotted
unitPrice equals `round(originalPrice * (1 - discountPercent/100))` on the
product row re-read inside the transaction, equals the original price when
the discount is absent or zero, and finalPrice equals
`unitPrice * quantity`; in particular a price of 10000 with a 10% discount
and quantity 2 yields unitPrice 9000, finalPrice 18000, totalAmount 18000
and status `PAYMENT_PENDING`. -/
theorem orderCreation_pricing_snapshots :
    (∀ (productsInTx : List Product) (orderId : String) (cis : List CartItem)
       (items : List OrderItem),
      buildOrderItems productsInTx orderId cis = some items →
      List.Forall₂ (fun (ci : CartItem) (item : OrderItem) =>
        ∃ product, productsInTx.find? (fun p => p.id == ci.productId) = some product ∧
          item.unitPrice =
            jsRound ((product.price : ℚ) *
              (1 - ((product.discountPercent.getD 0 : Int) : ℚ) / 100)) ∧
          (product.discountPercent = none ∨ product.discountPercent = some 0 →
            item.unitPrice = product.price) ∧
          item.finalPrice = item.unitPrice * item.quantity ∧
          item.quantity = ci.quantity) cis items) ∧
    createOrder dbScenario1 "u1" ["ci1"] "oNew" (some "rzpNew") =
      (.success (some "rzpNew") "oNew" 18000 false,
       { dbScenario1 with orders := [scenario1Order], orderItems := [scenario1Item] }) := by
  constructor
  · intro productsInTx orderId cis items h
    refine (buildOrderItems_spec productsInTx orderId cis items h).imp ?_
    intro ci item hspec
    obtain ⟨product, hfind, _, _, hunit, _, hfinal, hqty, _⟩ := hspec
    refine ⟨product, hfind, ?_, ?_, hfinal, hqty⟩
    · rw [hunit, calculateDiscountedPrice_eq_round]
    · intro hzero
      rw [hunit, calculateDiscountedPrice_no_discount product.price product.discountPercent hzero]
  · have h : calculateDiscountedPrice 10000 (some 10) = 9000 := by
      norm_num [calculateDiscountedPrice, jsRound]
    simp [createOrder, dbScenario1, buildOrderItems, stockCheck, h, scenario1Order,
      scenario1Item, dbPending, teaProduct, coffeeProduct, pendingOrder, teaOrderItem,
      cartItemsOf, invalidIdsOf, selectedItemsOf, activeProductsOf]

/-- A concrete cart item over `teaProduct` used as witness input. -/
def witnessCartItem : CartItem :=
  { id := "ciW", cartId := "cW", productId := "p1", quantity := 3 }

/-- The order item `buildOrderItems` snapshots from `witnessCartItem`. -/
def witnessOrderItem : OrderItem :=
  { orderId := "oW", productId := "p1", productName := "Tea", unitPrice := 500,
    discountPercent := none, finalPrice := 1500, quantity := 3,
    variantId := none, sizeGrams := none }

/-- Witness for C5: the general clause evaluated on a concrete
one-item cart over the undiscounted `teaProduct`. -/
theorem orderCreation_pricing_snapshots_witness :
    buildOrderItems [teaProduct] "oW" [witnessCartItem] = some [witnessOrderItem] ∧
    List.Forall₂ (fun (ci : CartItem) (item : OrderItem) =>
      ∃ product, [teaProduct].find? (fun p => p.id == ci.productId) = some product ∧
        item.unitPrice =
          jsRound ((product.price : ℚ) *
            (1 - ((product.discountPercent.getD 0 : Int) : ℚ) / 100)) ∧
        (product.discountPercent = none ∨ product.discountPercent = some 0 →
          item.unitPrice = product.price) ∧
        item.finalPrice = item.unitPrice * item.quantity ∧
        item.quantity = ci.quantity)
      [witnessCartItem] [witnessOrderItem] :=
  ⟨by decide, orderCreation_pricing_snapshots.1 [teaProduct] "oW" _ _ (by decide)⟩

/-- `pendingOrder` after an already-processed confirmation. -/
def confirmedOrder : Order := { pendingOrder with status := .ORDER_CONFIRMED }

/-- Store state whose only order is already `ORDER_CONFIRMED`. -/
def dbConfirmed : DB := { dbPending with orders := [confirmedOrder] }

/-- C1 counterexample: for an order that is already `ORDER_CONFIRMED`
(stored gateway order reference `"rzp1"`), a verification call claiming
the gateway order reference `"rzpOTHER"` is rejected with a 400 mismatch
error instead of returning success: the gateway order-reference check runs
before the idempotent short-circuit, so the claim that the short-circuit
comes first and succeeds for any claimed reference is false. -/
theorem verify_confirmed_mismatched_ref_rejected :
    verifyPayment dbConfirmed "u1" "o1" "rzpOTHER" "pay1" "sig1" true
        (some capturedPayment) 99 =
      (.error "Razorpay order ID mismatch" 400, dbConfirmed) := by decide

/-- C1 (amended): for every order that is already `ORDER_CONFIRMED`, a
verification call whose claimed gateway order reference equals the stored
one returns success immediately with the store unchanged (no stock
decrement, no cart purge, no order update), for every value of the
signature oracle and of the independently fetched payment — the
short-circuit runs before the signature and amount checks, but after the
gateway order-reference check. -/
theorem verify_confirmed_idempotent_short_circuit (db : DB)
    (userId orderId ref payId sig : String) (sigValid : Bool)
    (fetched : Option RazorpayPayment) (now : Int) (order : Order)
    (h1 : db.orders.find? (fun o => o.id == orderId && o.userId == userId) = some order)
    (h2 : order.razorpayOrderId = some ref)
    (h3 : order.status = .ORDER_CONFIRMED) :
    verifyPayment db userId orderId ref payId sig sigValid fetched now =
      (.success order.id "Order already confirmed", db) := by
  unfold verifyPayment
  rw [h1]
  simp [h2, h3]

/-- Witness for the amended C1, on `dbConfirmed` with a matching
reference, an invalid signature and no fetched payment. -/
theorem verify_confirmed_idempotent_short_circuit_witness :
    verifyPayment dbConfirmed "u1" "o1" "rzp1" "pay1" "sig1" false none 99 =
      (.success confirmedOrder.id "Order already confirmed", dbConfirmed) :=
  verify_confirmed_idempotent_short_circuit dbConfirmed "u1" "o1" "rzp1" "pay1" "sig1"
    false none 99 confirmedOrder (by decide) (by decide) (by decide)

/-- C8: when the gateway's independently fetched payment reports an amount
different from the order's stored `totalAmount` (exact integer
comparison), verification rejects with the amount-mismatch error and the
store is unchanged — the order stays `PAYMENT_PENDING` and no product's
stock changes. -/
theorem verify_amount_mismatch_rejected (db : DB)
    (userId orderId ref payId sig : String) (payment : RazorpayPayment) (now : Int)
    (order : Order)
    (h1 : db.orders.find? (fun o => o.id == orderId && o.userId == userId) = some order)
    (h2 : order.razorpayOrderId = some ref)
    (h3 : order.status = .PAYMENT_PENDING)
    (h4 : payment.status = "captured")
    (h5 : payment.order_id = ref)
    (h6 : payment.amount ≠ order.totalAmount) :
    verifyPayment db userId orderId ref payId sig true (some payment) now =
      (.error "Payment amount mismatch" 400, db) := by
  unfold verifyPayment
  rw [h1]
  simp [h2, h3, h4, h5, h6]

/-- The gateway payment record of Scenario 2: captured, matching order
reference, but amount 17000 against a stored total of 18000. -/
def mismatchedPayment : RazorpayPayment :=
  { status := "captured", order_id := "rzp1", amount := 900 }

/-- Witness for C8: on `dbPending` (total 1000) with a fetched payment of
amount 900, verification returns the amount-mismatch error and leaves the
store unchanged. -/
theorem verify_amount_mismatch_rejected_witness :
    verifyPayment dbPending "u1" "o1" "rzp1" "pay1" "sig1" true
        (some mismatchedPayment) 99 =
      (.error "Payment amount mismatch" 400, dbPending) :=
  verify_amount_mismatch_rejected dbPending "u1" "o1" "rzp1" "pay1" "sig1"
    mismatchedPayment 99 pendingOrder (by decide) (by decide) (by decide) (by decide)
    (by decide) (by decide)

/-- C2: when the in-transaction stock re-validation finds an order item
with `product.stock < item.quantity`, the transaction is rolled back and
the order is marked `PAYMENT_FAILED` outside it: the resulting store
differs from the original only in that one order's status — every
product's stock, every cart item and every cart are unchanged — and the
caller receives the insufficient-stock error. -/
theorem verify_stock_failure_rolls_back (db : DB)
    (userId orderId ref payId sig : String) (payment : RazorpayPayment) (now : Int)
    (order : Order) (item : OrderItem) (available : Int)
    (h1 : db.orders.find? (fun o => o.id == orderId && o.userId == userId) = some order)
    (h2 : order.razorpayOrderId = some ref)
    (h3 : order.status = .PAYMENT_PENDING)
    (h4 : payment.status = "captured")
    (h5 : payment.order_id = ref)
    (h6 : payment.amount = order.totalAmount)
    (h7 : db.orders.find? (fun o => o.id == order.id) = some order)
    (h8 : revalidateStock db.products
        (db.orderItems.filter (fun it => it.orderId == order.id)) =
        some (.insufficient item available)) :
    verifyPayment db userId orderId ref payId sig true (some payment) now =
      (.error ("Insufficient stock for " ++ item.productName) 400,
       { db with orders := db.orders.map (fun o =>
           if o.id == order.id then { o with status := .PAYMENT_FAILED } else o) }) := by
  unfold verifyPayment verifyTransaction
  rw [h1]
  simp [h2, h3, h4, h5, h6, h7, h8]

/-- `dbPending` with the tea stock lowered to 1 (below the ordered
quantity 2). -/
def dbPendingLowStock : DB :=
  { dbPending with products := [{ teaProduct with stock := 1 }, coffeeProduct] }

/-- Witness for C2: on `dbPendingLowStock`, verification fails with the
insufficient-stock error, the order becomes `PAYMENT_FAILED`, and
products, cart items and carts are untouched. -/
theorem verify_stock_failure_rolls_back_witness :
    verifyPayment dbPendingLowStock "u1" "o1" "rzp1" "pay1" "sig1" true
        (some capturedPayment) 99 =
      (.error ("Insufficient stock for " ++ teaOrderItem.productName) 400,
       { dbPendingLowStock with orders := dbPendingLowStock.orders.map (fun o =>
           if o.id == pendingOrder.id then { o with status := .PAYMENT_FAILED } else o) }) :=
  verify_stock_failure_rolls_back dbPendingLowStock "u1" "o1" "rzp1" "pay1" "sig1"
    capturedPayment 99 pendingOrder teaOrderItem 1 (by decide) (by decide) (by decide)
    (by decide) (by decide) (by decide) (by decide) (by decide)

/-- A committed verification transaction leaves the carts untouched, and
either changes no cart item (the idempotent no-op) or deletes exactly the
owner-cart items whose product id occurs among the order's items. -/
theorem verifyTransaction_committed_carts (db : DB) (order : Order)
    (payId sig : String) (now : Int) (db' : DB)
    (h : verifyTransaction db order payId sig now = .committed db') :
    db'.carts = db.carts ∧
    (db'.cartItems = db.cartItems ∨
     ∃ c, db.carts.find? (fun c => c.userId == order.userId) = some c ∧
       db'.cartItems = db.cartItems.filter (fun ci =>
         !(ci.cartId == c.id &&
           ((db.orderItems.filter (fun it => it.orderId == order.id)).map
             (fun it => it.productId)).contains ci.productId))) := by
  unfold verifyTransaction at h
  cases hfind : db.orders.find? (fun o => o.id == order.id) with
  | none => rw [hfind] at h; cases h
  | some currentOrder =>
    rw [hfind] at h
    by_cases hconf : currentOrder.status = OrderStatus.ORDER_CONFIRMED
    · simp only [hconf, if_true] at h
      cases h
      exact ⟨rfl, Or.inl rfl⟩
    · simp only [hconf, if_false] at h
      by_cases hpend : currentOrder.status = OrderStatus.PAYMENT_PENDING
      · simp only [hpend, ne_eq, not_true_eq_false, if_false] at h
        cases hreval : revalidateStock db.products
            (db.orderItems.filter (fun it => it.orderId == order.id)) with
        | none =>
          rw [hreval] at h
          cases hcart : db.carts.find? (fun c => c.userId == order.userId) with
          | none =>
            rw [hcart] at h
            cases h
            exact ⟨rfl, Or.inl rfl⟩
          | some c =>
            rw [hcart] at h
            cases h
            exact ⟨rfl, Or.inr ⟨c, rfl, rfl⟩⟩
        | some fail =>
          rw [hreval] at h
          cases fail <;> cases h
      · simp only [hpend, ne_eq, not_false_eq_true, if_true] at h
        cases h

/-- C7: when payment verification returns success for an order, the only
cart items that can disappear are those of the owner's cart whose product
id appears among that order's items; every cart item whose product id is
not in the order survives, and no cart row is ever deleted. -/
theorem verify_success_cart_isolation (db : DB)
    (userId orderId ref payId sig : String) (sigValid : Bool)
    (fetched : Option RazorpayPayment) (now : Int) (order : Order)
    (oid msg : String) (db' : DB)
    (h1 : db.orders.find? (fun o => o.id == orderId && o.userId == userId) = some order)
    (hrun : verifyPayment db userId orderId ref payId sig sigValid fetched now =
      (.success oid msg, db')) :
    db'.carts = db.carts ∧
    (∀ ci ∈ db.cartItems,
      ci.productId ∉ (db.orderItems.filter (fun it => it.orderId == order.id)).map
        (fun it => it.productId) → ci ∈ db'.cartItems) ∧
    (∀ ci ∈ db.cartItems, ci ∉ db'.cartItems →
      ci.productId ∈ (db.orderItems.filter (fun it => it.orderId == order.id)).map
        (fun it => it.productId)) := by
  have frame : db' = db →
      db'.carts = db.carts ∧
      (∀ ci ∈ db.cartItems,
        ci.productId ∉ (db.orderItems.filter (fun it => it.orderId == order.id)).map
          (fun it => it.productId) → ci ∈ db'.cartItems) ∧
      (∀ ci ∈ db.cartItems, ci ∉ db'.cartItems →
        ci.productId ∈ (db.orderItems.filter (fun it => it.orderId == order.id)).map
          (fun it => it.productId)) := by
    intro heq
    subst heq
    exact ⟨rfl, fun ci hmem _ => hmem, fun ci hmem hnot => absurd hmem hnot⟩
  unfold verifyPayment at hrun
  rw [h1] at hrun
  by_cases h2 : order.razorpayOrderId = some ref
  case neg => simp [h2] at hrun
  simp only [h2, ne_eq, not_true_eq_false, if_false] at hrun
  by_cases h3 : order.status = OrderStatus.ORDER_CONFIRMED
  · -- the pre-transaction idempotent short-circuit: store unchanged
    simp only [h3, if_true] at hrun
    exact frame (congrArg Prod.snd hrun).symm
  simp only [h3, if_false] at hrun
  by_cases h4 : order.status = OrderStatus.PAYMENT_PENDING
  case neg => simp [h4] at hrun
  simp only [h4, ne_eq, not_true_eq_false, if_false] at hrun
  cases sigValid with
  | false => simp at hrun
  | true =>
    simp only [Bool.not_true, Bool.false_eq_true, if_false] at hrun
    cases fetched with
    | none => simp at hrun
    | some payment =>
      by_cases h5 : payment.status = "captured"
      case neg => simp [h5] at hrun
      simp only [h5, ne_eq, not_true_eq_false, if_false] at hrun
      by_cases h6 : payment.order_id = ref
      case neg => simp [h6] at hrun
      simp only [h6, ne_eq, not_true_eq_false, if_false] at hrun
      by_cases h7 : payment.amount = order.totalAmount
      case neg => simp [h7] at hrun
      simp only [h7, ne_eq, not_true_eq_false, if_false] at hrun
      cases htx : verifyTransaction db order payId sig now with
      | committed dbc =>
        rw [htx] at hrun
        simp only [Prod.mk.injEq] at hrun
        obtain ⟨-, hdb⟩ := hrun
        subst hdb
        obtain ⟨hcarts, hitems⟩ :=
          verifyTransaction_committed_carts db order payId sig now dbc htx
        refine ⟨hcarts, ?_, ?_⟩
        · intro ci hmem hnotin
          rcases hitems with heq | ⟨c, -, heq⟩
          · rw [heq]; exact hmem
          · rw [heq]
            refine List.mem_filter.mpr ⟨hmem, ?_⟩
            have hc : ((db.orderItems.filter (fun it => it.orderId == order.id)).map
                (fun it => it.productId)).contains ci.productId = false := by
              simpa using hnotin
            simp only [hc, Bool.and_false, Bool.not_false]
        · intro ci hmem hnot
          rcases hitems with heq | ⟨c, -, heq⟩
          · rw [heq] at hnot; exact absurd hmem hnot
          · rw [heq] at hnot
            by_contra hpid
            refine hnot (List.mem_filter.mpr ⟨hmem, ?_⟩)
            have hc : ((db.orderItems.filter (fun it => it.orderId == order.id)).map
                (fun it => it.productId)).contains ci.productId = false := by
              simpa using hpid
            simp only [hc, Bool.and_false, Bool.not_false]
      | stockFail item available => rw [htx] at hrun; simp at hrun
      | otherFail m => rw [htx] at hrun; simp at hrun

/-- Witness for C7: in the concrete successful confirmation of
`pendingOrder`, the cart item of the unrelated product survives and the
cart rows are unchanged. -/
theorem verify_success_cart_isolation_witness :
    coffeeCartItem ∈ dbAfterSuccess.cartItems ∧
    dbAfterSuccess.carts = dbPending.carts := by
  have h := verify_success_cart_isolation dbPending "u1" "o1" "rzp1" "pay1" "sig1"
    true (some capturedPayment) 99 pendingOrder "o1"
    "Payment verified successfully. Order confirmed." dbAfterSuccess
    (by decide) (by decide)
  exact ⟨h.2.1 coffeeCartItem (by decide) (by decide), h.1⟩

/-- `pendingOrder` already shipped. -/
def shippedOrder : Order := { pendingOrder with status := .SHIPPED }

/-- Store state whose only order is `SHIPPED`. -/
def dbShipped : DB := { dbPending with orders := [shippedOrder] }

/-- `pendingOrder` already delivered. -/
def deliveredOrder : Order := { pendingOrder with status := .DELIVERED }

/-- Store state whose only order is `DELIVERED`. -/
def dbDelivered : DB := { dbPending with orders := [deliveredOrder] }

/-- C3 counterexample: the admin endpoint accepts the transition of a
`SHIPPED` order to `CANCELLED` — the request succeeds, the status changes
and the stock is restored — so the claim that every such request is
rejected with the status unchanged is false. -/
theorem admin_cancels_shipped_order :
    adminUpdateOrderStatus dbShipped "o1" .CANCELLED =
      (.success .CANCELLED,
       { dbShipped with
         products := [{ teaProduct with stock := 12 }, coffeeProduct]
         orders := [{ shippedOrder with status := .CANCELLED }] }) := by decide

/-- C3 (amended): no operation moves an order from `DELIVERED` to
`CANCELLED` — the admin endpoint and both user cancellation handlers
reject such a request with a client error and an unchanged store — and
both user cancellation handlers likewise reject cancelling a `SHIPPED`
order; however the admin endpoint does accept `SHIPPED → CANCELLED`. -/
theorem cancelled_unreachable_from_delivered :
    (∀ (db : DB) (orderId : String) (order : Order),
      db.orders.find? (fun o => o.id == orderId) = some order →
      order.status = OrderStatus.DELIVERED →
      adminUpdateOrderStatus db orderId .CANCELLED = (.error "Cannot cancel order" 400, db)) ∧
    (∀ (db : DB) (userId orderId : String) (order : Order),
      db.orders.find? (fun o => o.id == orderId && o.userId == userId) = some order →
      order.status = OrderStatus.DELIVERED →
      cancelOrderUser db userId orderId = (.error "Order cannot be cancelled" 400, db)) ∧
    (∀ (hasVariantsFn : String → Bool) (db : DB) (userId orderId : String) (order : Order),
      db.orders.find? (fun o => o.id == orderId && o.userId == userId) = some order →
      order.status = OrderStatus.DELIVERED →
      cancelOrderSupabase hasVariantsFn db userId orderId =
        (.error "Order cannot be cancelled" 400, db)) ∧
    (∀ (db : DB) (userId orderId : String) (order : Order),
      db.orders.find? (fun o => o.id == orderId && o.userId == userId) = some order →
      order.status = OrderStatus.SHIPPED →
      cancelOrderUser db userId orderId = (.error "Order cannot be cancelled" 400, db)) ∧
    (∀ (hasVariantsFn : String → Bool) (db : DB) (userId orderId : String) (order : Order),
      db.orders.find? (fun o => o.id == orderId && o.userId == userId) = some order →
      order.status = OrderStatus.SHIPPED →
      cancelOrderSupabase hasVariantsFn db userId orderId =
        (.error "Order cannot be cancelled" 400, db)) := by
  refine ⟨?_, ?_, ?_, ?_, ?_⟩
  · intro db orderId order hfind hst
    unfold adminUpdateOrderStatus
    rw [hfind]
    simp [hst]
  · intro db userId orderId order hfind hst
    unfold cancelOrderUser
    rw [hfind]
    simp [hst]
  · intro hasVariantsFn db userId orderId order hfind hst
    unfold cancelOrderSupabase
    rw [hfind]
    simp [hst]
  · intro db userId orderId order hfind hst
    unfold cancelOrderUser
    rw [hfind]
    simp [hst]
  · intro hasVariantsFn db userId orderId order hfind hst
    unfold cancelOrderSupabase
    rw [hfind]
    simp [hst]

/-- Witness for the amended C3: on a concrete `DELIVERED` order the admin
cancel request errors and the store is unchanged, and on a concrete
`SHIPPED` order the Prisma user cancel errors and the store is
unchanged. -/
theorem cancelled_unreachable_from_delivered_witness :
    adminUpdateOrderStatus dbDelivered "o1" .CANCELLED =
      (.error "Cannot cancel order" 400, dbDelivered) ∧
    cancelOrderUser dbShipped "u1" "o1" =
      (.error "Order cannot be cancelled" 400, dbShipped) :=
  ⟨cancelled_unreachable_from_delivered.1 dbDelivered "o1" deliveredOrder
     (by decide) (by decide),
   cancelled_unreachable_from_delivered.2.2.2.1 dbShipped "u1" "o1" shippedOrder
     (by decide) (by decide)⟩

/-- A product whose id differs from the incremented one passes through
`incrementStock` unchanged. -/
theorem incrementStock_mem_of_ne (products : List Product) (pid : String) (qty : Int)
    (p : Product) (hne : pid ≠ p.id) (hp : p ∈ products) :
    p ∈ incrementStock products pid qty := by
  unfold incrementStock
  refine List.mem_map.mpr ⟨p, hp, ?_⟩
  have : (p.id == pid) = false := by simpa using fun h => hne h.symm
  simp [this]

/-- The product with the incremented id gains exactly `qty` stock. -/
theorem incrementStock_mem_of_eq (products : List Product) (pid : String) (qty : Int)
    (p : Product) (heq : pid = p.id) (hp : p ∈ products) :
    { p with stock := p.stock + qty } ∈ incrementStock products pid qty := by
  unfold incrementStock
  refine List.mem_map.mpr ⟨p, hp, ?_⟩
  simp [heq]

/-- A product mentioned by no order item survives the admin stock-restore
loop unchanged. -/
theorem restoreStockLoop_preserves_unrelated (items : List OrderItem) :
    ∀ (products products' : List Product) (p : Product),
      restoreStockLoop products items = some products' →
      (∀ it ∈ items, it.productId ≠ p.id) →
      p ∈ products → p ∈ products' := by
  induction items with
  | nil =>
    intro products products' p h hnot hp
    simp only [restoreStockLoop] at h
    cases h
    exact hp
  | cons j rest ih =>
    intro products products' p h hnot hp
    simp only [restoreStockLoop] at h
    by_cases hany : products.any (fun q => q.id == j.productId)
    · rw [if_pos hany] at h
      refine ih (incrementStock products j.productId j.quantity) products' p h
        (fun it hit => hnot it (List.mem_cons_of_mem j hit)) ?_
      exact incrementStock_mem_of_ne products j.productId j.quantity p
        (hnot j (List.mem_cons_self j rest)) hp
    · rw [if_neg hany] at h
      cases h

/-- When order items carry pairwise distinct product ids, the admin
stock-restore loop raises the stock of each mentioned product row by
exactly that item's quantity. -/
theorem restoreStockLoop_increments (items : List OrderItem) :
    ∀ (products products' : List Product) (p : Product) (it : OrderItem),
      restoreStockLoop products items = some products' →
      (items.map (fun it => it.productId)).Nodup →
      it ∈ items → it.productId = p.id → p ∈ products →
      { p with stock := p.stock + it.quantity } ∈ products' := by
  induction items with
  | nil =>
    intro products products' p it h hnodup hit
    cases hit
  | cons j rest ih =>
    intro products products' p it h hnodup hit heq hp
    simp only [restoreStockLoop] at h
    rw [List.map_cons, List.nodup_cons] at hnodup
    by_cases hany : products.any (fun q => q.id == j.productId)
    · rw [if_pos hany] at h
      rcases List.mem_cons.mp hit with hj | htl
      · rw [hj] at heq ⊢
        refine restoreStockLoop_preserves_unrelated rest _ products' _ h ?_ ?_
        · intro it' hit' habs
          exact hnodup.1 (List.mem_map.mpr ⟨it', hit', by rw [habs, ← heq]⟩)
        · exact incrementStock_mem_of_eq products j.productId j.quantity p heq hp
      · have hjp : j.productId ≠ p.id := by
          intro habs
          refine hnodup.1 ?_
          rw [habs, ← heq]
          exact List.mem_map.mpr ⟨it, htl, rfl⟩
        refine ih (incrementStock products j.productId j.quantity) products' p it h
          hnodup.2 htl heq ?_
        exact incrementStock_mem_of_ne products j.productId j.quantity p hjp hp
    · rw [if_neg hany] at h
      cases h

/-- A product whose id differs from the processed item's passes through
one Supabase restore iteration unchanged. -/
theorem restoreStockSupabaseStep_of_ne (hasVariantsFn : String → Bool) (db : DB)
    (item : OrderItem) (p : Product) (hne : item.productId ≠ p.id)
    (hp : p ∈ db.products) :
    p ∈ (restoreStockSupabaseStep hasVariantsFn db item).products := by
  unfold restoreStockSupabaseStep
  have hgen : ∀ (o : Option ProductVariant),
      p ∈ (match o with
        | none => db
        | some variant =>
          { db with variants := db.variants.map (fun (v : ProductVariant) =>
              if v.id == variant.id then { v with stock := v.stock + item.quantity }
              else v) }).products := by
    intro o
    cases o with
    | none => exact hp
    | some variant => exact hp
  split
  · exact hp
  · split
    · exact hgen _
    · refine List.mem_map.mpr ⟨p, hp, ?_⟩
      have hb : (p.id == item.productId) = false := by
        simpa using fun habs => hne habs.symm
      simp [hb]

/-- One Supabase restore iteration on a variant-free item raises the
matching product row's stock by the item's quantity. -/
theorem restoreStockSupabaseStep_increments (hasVariantsFn : String → Bool) (db : DB)
    (item : OrderItem) (p : Product)
    (hplain : item.variantId = none ∧ item.sizeGrams = none)
    (heq : item.productId = p.id) (hp : p ∈ db.products) :
    { p with stock := p.stock + item.quantity } ∈
      (restoreStockSupabaseStep hasVariantsFn db item).products := by
  unfold restoreStockSupabaseStep
  split
  · rename_i hfind
    exfalso
    have := List.find?_eq_none.mp hfind p hp
    rw [heq] at this
    simp at this
  · rename_i product hfind
    have hcond : ¬(hasVariantsFn product.category = true ∧
        (item.variantId.isSome = true ∨ item.sizeGrams.isSome = true)) := by
      simp [hplain.1, hplain.2]
    rw [if_neg hcond]
    refine List.mem_map.mpr ⟨p, hp, ?_⟩
    simp [heq]

/-- A product mentioned by no order item survives the Supabase
stock-restore loop unchanged. -/
theorem restoreStockSupabase_preserves_unrelated (hasVariantsFn : String → Bool)
    (items : List OrderItem) :
    ∀ (db : DB) (p : Product),
      (∀ it ∈ items, it.productId ≠ p.id) →
      p ∈ db.products → p ∈ (restoreStockSupabase hasVariantsFn db items).products := by
  induction items with
  | nil =>
    intro db p _ hp
    exact hp
  | cons j rest ih =>
    intro db p hnot hp
    refine ih _ p (fun it hit => hnot it (List.mem_cons_of_mem j hit)) ?_
    exact restoreStockSupabaseStep_of_ne hasVariantsFn db j p
      (hnot j (List.mem_cons_self j rest)) hp

/-- When order items carry pairwise distinct product ids and no variant
fields, the Supabase stock-restore loop raises the stock of each
mentioned product row by exactly that item's quantity. -/
theorem restoreStockSupabase_increments (hasVariantsFn : String → Bool)
    (items : List OrderItem) :
    ∀ (db : DB) (p : Product) (it : OrderItem),
      (items.map (fun it => it.productId)).Nodup →
      (∀ it' ∈ items, it'.variantId = none ∧ it'.sizeGrams = none) →
      it ∈ items → it.productId = p.id → p ∈ db.products →
      { p with stock := p.stock + it.quantity } ∈
        (restoreStockSupabase hasVariantsFn db items).products := by
  induction items with
  | nil =>
    intro db p it _ _ hit
    cases hit
  | cons j rest ih =>
    intro db p it hnodup hplain hit heq hp
    rw [List.map_cons, List.nodup_cons] at hnodup
    have hplainrest : ∀ it' ∈ rest, it'.variantId = none ∧ it'.sizeGrams = none :=
      fun it' hit' => hplain it' (List.mem_cons_of_mem j hit')
    have hplainj := hplain j (List.mem_cons_self j rest)
    rcases List.mem_cons.mp hit with hj | htl
    · rw [hj] at heq ⊢
      refine restoreStockSupabase_preserves_unrelated hasVariantsFn rest _ _ ?_ ?_
      · intro it' hit' habs
        exact hnodup.1 (List.mem_map.mpr ⟨it', hit', by rw [habs, ← heq]⟩)
      · exact restoreStockSupabaseStep_increments hasVariantsFn db j p hplainj heq hp
    · have hjp : j.productId ≠ p.id := by
        intro habs
        refine hnodup.1 ?_
        rw [habs, ← heq]
        exact List.mem_map.mpr ⟨it, htl, rfl⟩
      refine ih _ p it hnodup.2 hplainrest htl heq ?_
      exact restoreStockSupabaseStep_of_ne hasVariantsFn db j p hjp hp

/-- Concrete stand-in for the `hasVariants` helper: no category uses
variants. -/
def noVariants : String → Bool := fun _ => false

/-- C4 counterexample: cancelling the `PAYMENT_PENDING` order `o1`
through the Supabase-migration user cancel handler succeeds and raises
the ordered product's stock from 10 to 12, although stock was never
decremented for a pending order — so the claim that entering `CANCELLED`
from `PAYMENT_PENDING` changes no product's stock is false. -/
theorem supabase_cancel_pending_restores_stock :
    cancelOrderSupabase noVariants dbPending "u1" "o1" =
      (.success .CANCELLED,
       { dbPending with
         products := [{ teaProduct with stock := 12 }, coffeeProduct]
         orders := [{ pendingOrder with status := .CANCELLED }] }) := by decide

/-- C4 (amended): cancelling through the admin endpoint (reachable from
`ORDER_CONFIRMED` or `SHIPPED` only) flips the status and increases each
ordered product's stock by exactly that order item's quantity while
leaving unmentioned products unchanged; the Prisma user cancel endpoint
(reachable from `PAYMENT_PENDING`/`PAYMENT_FAILED` only) never changes any
product; but the Supabase-migration user cancel endpoint restores stock on
every cancellation it performs — also from `PAYMENT_PENDING` and
`PAYMENT_FAILED`. -/
theorem cancellation_stock_restoration :
    (∀ (db : DB) (orderId : String) (order : Order) (products' : List Product),
      db.orders.find? (fun o => o.id == orderId) = some order →
      (order.status = OrderStatus.ORDER_CONFIRMED ∨ order.status = OrderStatus.SHIPPED) →
      restoreStockLoop db.products
        (db.orderItems.filter (fun it => it.orderId == order.id)) = some products' →
      adminUpdateOrderStatus db orderId .CANCELLED =
        (.success .CANCELLED,
         { db with
           products := products'
           orders := db.orders.map (fun o =>
             if o.id == order.id then { o with status := .CANCELLED } else o) }) ∧
      (∀ p ∈ db.products,
        (∀ it ∈ db.orderItems.filter (fun it => it.orderId == order.id),
          it.productId ≠ p.id) → p ∈ products') ∧
      (((db.orderItems.filter (fun it => it.orderId == order.id)).map
          (fun it => it.productId)).Nodup →
        ∀ p ∈ db.products,
          ∀ it ∈ db.orderItems.filter (fun it => it.orderId == order.id),
            it.productId = p.id →
            { p with stock := p.stock + it.quantity } ∈ products')) ∧
    (∀ (db : DB) (userId orderId : String),
      (cancelOrderUser db userId orderId).2.products = db.products) ∧
    (∀ (hasVariantsFn : String → Bool) (db : DB) (userId orderId : String) (order : Order),
      db.orders.find? (fun o => o.id == orderId && o.userId == userId) = some order →
      (order.status = OrderStatus.PAYMENT_PENDING ∨
        order.status = OrderStatus.PAYMENT_FAILED ∨
        order.status = OrderStatus.ORDER_CONFIRMED) →
      ((db.orderItems.filter (fun it => it.orderId == orderId)).map
        (fun it => it.productId)).Nodup →
      (∀ it ∈ db.orderItems.filter (fun it => it.orderId == orderId),
        it.variantId = none ∧ it.sizeGrams = none) →
      ∀ p ∈ db.products,
        ∀ it ∈ db.orderItems.filter (fun it => it.orderId == orderId),
          it.productId = p.id →
          { p with stock := p.stock + it.quantity } ∈
            (cancelOrderSupabase hasVariantsFn db userId orderId).2.products) := by
  refine ⟨?_, ?_, ?_⟩
  · intro db orderId order products' hfind hstatus hrestore
    refine ⟨?_, ?_, ?_⟩
    · unfold adminUpdateOrderStatus
      rw [hfind]
      rcases hstatus with hst | hst <;> simp [hst, hrestore]
    · intro p hp hnot
      exact restoreStockLoop_preserves_unrelated _ _ _ p hrestore hnot hp
    · intro hnodup p hp it hit heq
      exact restoreStockLoop_increments _ _ _ p it hrestore hnodup hit heq hp
  · intro db userId orderId
    unfold cancelOrderUser
    split
    · rfl
    · split
      · rfl
      · rfl
  · intro hasVariantsFn db userId orderId order hfind hstatus hnodup hplain p hp it hit heq
    unfold cancelOrderSupabase
    rw [hfind]
    rcases hstatus with hst | hst | hst <;>
      simpa [hst] using
        restoreStockSupabase_increments hasVariantsFn
          (db.orderItems.filter (fun it => it.orderId == orderId)) db p it
          hnodup hplain hit heq hp

/-- `dbPending` with the order already confirmed (stock decremented by
the confirmation to 8). -/
def dbConfirmedStock8 : DB :=
  { dbPending with
    products := [{ teaProduct with stock := 8 }, coffeeProduct]
    orders := [confirmedOrder] }

/-- Witness for the amended C4: the admin cancellation of a concrete
`ORDER_CONFIRMED` order restores the tea stock from 8 to 10, leaves the
coffee product unchanged, and the Prisma user cancel of a concrete
pending order changes no product. -/
theorem cancellation_stock_restoration_witness :
    adminUpdateOrderStatus dbConfirmedStock8 "o1" .CANCELLED =
      (.success .CANCELLED,
       { dbConfirmedStock8 with
         products := [teaProduct, coffeeProduct]
         orders := [{ confirmedOrder with status := .CANCELLED }] }) ∧
    coffeeProduct ∈ [teaProduct, coffeeProduct] ∧
    ({ teaProduct with stock := 8 + teaOrderItem.quantity } :) ∈
      [teaProduct, coffeeProduct] ∧
    (cancelOrderUser dbPending "u1" "o1").2.products = dbPending.products := by
  have h := cancellation_stock_restoration.1 dbConfirmedStock8 "o1" confirmedOrder
    [teaProduct, coffeeProduct] (by decide) (Or.inl (by decide)) (by decide)
  refine ⟨?_, ?_, ?_, cancellation_stock_restoration.2.1 dbPending "u1" "o1"⟩
  · have := h.1
    simpa using this
  · exact h.2.1 coffeeProduct (by decide) (by decide)
  · have := h.2.2 (by decide) { teaProduct with stock := 8 } (by decide)
      teaOrderItem (by decide) (by decide)
    simpa using this

/-- The items committed for a fresh order id are exactly what a filter by
that order id returns, once no pre-existing order item carries it. -/
theorem filter_committed_items (oldItems itemsData : List OrderItem)
    (ptx : List Product) (newOrderId : String) (cis : List CartItem)
    (hbuild : buildOrderItems ptx newOrderId cis = some itemsData)
    (hfresh : ∀ it ∈ oldItems, it.orderId ≠ newOrderId) :
    (oldItems ++ itemsData).filter (fun it => it.orderId == newOrderId) = itemsData := by
  rw [List.filter_append]
  have h1 : oldItems.filter (fun it => it.orderId == newOrderId) = [] := by
    rw [List.filter_eq_nil_iff]
    intro it hit
    simpa using hfresh it hit
  have h2 : itemsData.filter (fun it => it.orderId == newOrderId) = itemsData := by
    rw [List.filter_eq_self]
    intro it hit
    simpa using buildOrderItems_orderId ptx newOrderId cis itemsData hbuild it hit
  rw [h1, h2, List.nil_append]

/-- C6: for every order produced by order creation — including the order
committed on the `totalAmount <= 0` failure path and the order updated
with the gateway reference — the sum of its order items' `finalPrice`
values equals the order's `totalAmount`. -/
theorem createOrder_total_is_item_sum (db : DB) (userId : String)
    (selectedCartItemIds : List String) (newOrderId : String)
    (gatewayOrderId : Option String) (r : CreateOrderResult) (db' : DB)
    (h : createOrder db userId selectedCartItemIds newOrderId gatewayOrderId = (r, db'))
    (hfreshO : ∀ o ∈ db.orders, o.id ≠ newOrderId)
    (hfreshI : ∀ it ∈ db.orderItems, it.orderId ≠ newOrderId) :
    ∀ o ∈ db'.orders, o.id = newOrderId →
      ((db'.orderItems.filter (fun it => it.orderId == newOrderId)).map
        (fun it => it.finalPrice)).sum = o.totalAmount := by
  have habs : ∀ (res : CreateOrderResult), (res, db) = (r, db') →
      ∀ o ∈ db'.orders, o.id = newOrderId →
      ((db'.orderItems.filter (fun it => it.orderId == newOrderId)).map
        (fun it => it.finalPrice)).sum = o.totalAmount := by
    intro res hres
    have hdb : db' = db := ((Prod.mk.injEq _ _ _ _).mp hres).2.symm
    subst hdb
    intro o ho hid
    exact absurd hid (hfreshO o ho)
  unfold createOrder at h
  cases hcart : db.carts.find? (fun c => c.userId == userId) with
  | none =>
    rw [hcart] at h
    exact habs _ h
  | some cart =>
    rw [hcart] at h
    simp only [] at h
    by_cases h1 : 0 < (invalidIdsOf db cart selectedCartItemIds).length
    · rw [if_pos h1] at h
      exact habs _ h
    · rw [if_neg h1] at h
      by_cases h2 : (selectedItemsOf db cart selectedCartItemIds).length = 0
      · rw [if_pos h2] at h
        exact habs _ h
      · rw [if_neg h2] at h
        by_cases h3 : ((selectedItemsOf db cart selectedCartItemIds).any
            (fun item => item.quantity < 1 || 99 < item.quantity)) = true
        · rw [if_pos h3] at h
          exact habs _ h
        · rw [if_neg h3] at h
          by_cases h4 : ((activeProductsOf db
              ((selectedItemsOf db cart selectedCartItemIds).map
                (fun item => item.productId))).length !=
              ((selectedItemsOf db cart selectedCartItemIds).map
                (fun item => item.productId)).length) = true
          · rw [if_pos h4] at h
            exact habs _ h
          · rw [if_neg h4] at h
            cases hbuild : buildOrderItems
                (activeProductsOf db ((selectedItemsOf db cart selectedCartItemIds).map
                  (fun item => item.productId))) newOrderId
                (selectedItemsOf db cart selectedCartItemIds) with
            | none =>
              rw [hbuild] at h
              exact habs _ h
            | some itemsData =>
              rw [hbuild] at h
              simp only [] at h
              cases hstock : stockCheck
                  (activeProductsOf db ((selectedItemsOf db cart selectedCartItemIds).map
                    (fun item => item.productId)))
                  (selectedItemsOf db cart selectedCartItemIds) with
              | some fail =>
                rw [hstock] at h
                cases fail with
                | productMissing pid =>
                  simp only [] at h
                  exact habs _ h
                | insufficient name =>
                  simp only [] at h
                  exact habs _ h
              | none =>
                rw [hstock] at h
                simp only [] at h
                by_cases h5 : (itemsData.map (fun item => item.finalPrice)).sum ≤ 0
                · rw [if_pos h5] at h
                  cases h
                  intro o ho hid
                  simp only at ho ⊢
                  rw [filter_committed_items db.orderItems itemsData _ newOrderId _
                    hbuild hfreshI]
                  rcases List.mem_append.mp ho with hold | hnew
                  · exact absurd hid (hfreshO o hold)
                  · rw [List.mem_singleton.mp hnew]
                · rw [if_neg h5] at h
                  cases gatewayOrderId with
                  | some gid =>
                    simp only [] at h
                    cases h
                    intro o ho hid
                    simp only at ho ⊢
                    rw [filter_committed_items db.orderItems itemsData _ newOrderId _
                      hbuild hfreshI]
                    obtain ⟨x, hx, hfx⟩ := List.mem_map.mp ho
                    rcases List.mem_append.mp hx with hold | hnew
                    · have hne : (x.id == newOrderId) = false := by
                        simpa using hfreshO x hold
                      rw [hne] at hfx
                      simp only [Bool.false_eq_true, if_false] at hfx
                      rw [← hfx] at hid
                      exact absurd hid (hfreshO x hold)
                    · rw [List.mem_singleton.mp hnew] at hfx
                      simp only [beq_self_eq_true, if_true] at hfx
                      rw [← hfx]
                  | none =>
                    simp only [] at h
                    cases h
                    intro o ho hid
                    simp only at ho ⊢
                    rw [filter_committed_items db.orderItems itemsData _ newOrderId _
                      hbuild hfreshI]
                    rcases List.mem_append.mp ho with hold | hnew
                    · exact absurd hid (hfreshO o hold)
                    · rw [List.mem_singleton.mp hnew]

/-- Store state for a concrete checkout: one cart item of the
undiscounted `teaProduct`, no orders yet. -/
def dbCheckout : DB :=
  { products := [teaProduct]
    variants := []
    carts := [{ id := "c1", userId := "u1" }]
    cartItems := [teaCartItem]
    orders := []
    orderItems := [] }

/-- The order committed by the concrete checkout on `dbCheckout`. -/
def orderC : Order :=
  { id := "oC", userId := "u1", status := .PAYMENT_PENDING, totalAmount := 1000,
    currency := "INR", razorpayOrderId := some "rzpC", razorpayPaymentId := none,
    razorpaySignature := none, paidAt := none }

/-- Witness for C6: in the concrete checkout the committed order's item
sum equals its totalAmount. -/
theorem createOrder_total_is_item_sum_witness :
    ((((createOrder dbCheckout "u1" ["ci1"] "oC" (some "rzpC")).2.orderItems).filter
        (fun it => it.orderId == "oC")).map (fun it => it.finalPrice)).sum =
      orderC.totalAmount := by
  have h := createOrder_total_is_item_sum dbCheckout "u1" ["ci1"] "oC" (some "rzpC")
    (createOrder dbCheckout "u1" ["ci1"] "oC" (some "rzpC")).1
    (createOrder dbCheckout "u1" ["ci1"] "oC" (some "rzpC")).2
    rfl (by decide) (by decide)
  exact h orderC (by decide) (by decide)

/-- A fully discounted product: its discounted unit price is 0. -/
def freebieProduct : Product :=
  { id := "pF", name := "Free Sample", price := 100, discountPercent := some 100,
    stock := 5, isActive := true, category := "grocery" }

/-- Store state whose only cart item selects the fully discounted
product. -/
def dbFreebie : DB :=
  { products := [freebieProduct]
    variants := []
    carts := [{ id := "cF", userId := "u1" }]
    cartItems := [{ id := "ciF", cartId := "cF", productId := "pF", quantity := 2 }]
    orders := []
    orderItems := [] }

/-- The order that the freebie checkout persists before failing. -/
def orderF : Order :=
  { id := "oF", userId := "u1", status := .PAYMENT_PENDING, totalAmount := 0,
    currency := "INR", razorpayOrderId := none, razorpayPaymentId := none,
    razorpaySignature := none, paidAt := none }

/-- The order item the freebie checkout persists. -/
def orderItemF : OrderItem :=
  { orderId := "oF", productId := "pF", productName := "Free Sample",
    unitPrice := 0, discountPercent := some 100, finalPrice := 0, quantity := 2,
    variantId := none, sizeGrams := none }

/-- C10: for a valid order-creation input whose server-recomputed total is
`<= 0` (a fully discounted product), the `PAYMENT_PENDING` order and its
items are committed to the store, yet the request fails with a 500 error
and no gateway reference is stored on the order — even though the gateway
oracle (`some "rzpF"`) was available. -/
theorem createOrder_zero_total_persists_order_but_fails :
    createOrder dbFreebie "u1" ["ciF"] "oF" (some "rzpF") =
      (.error "Failed to create order" 500,
       { dbFreebie with orders := [orderF], orderItems := [orderItemF] }) := by
  have hc : calculateDiscountedPrice 100 (some 100) = 0 := by
    norm_num [calculateDiscountedPrice, jsRound]
  simp [createOrder, dbFreebie, buildOrderItems, stockCheck, hc, cartItemsOf,
    invalidIdsOf, selectedItemsOf, activeProductsOf, freebieProduct, orderF, orderItemF]

/-- One merge step keeps every cart item present, with its id and product
id unchanged. -/
theorem mergeGuestItem_preserves (products : List Product) (snapshot : List CartItem)
    (cartId newId : String) (g : GuestItem) (items : List CartItem) :
    ∀ ci ∈ items, ∃ ci' ∈ mergeGuestItem products snapshot cartId newId g items,
      ci'.id = ci.id ∧ ci'.productId = ci.productId := by
  intro ci hci
  unfold mergeGuestItem
  split
  · exact ⟨ci, hci, rfl, rfl⟩
  · split
    · exact ⟨ci, hci, rfl, rfl⟩
    · split
      · rename_i existingItem hsnap
        by_cases hid : (ci.id == existingItem.id) = true
        · exact ⟨{ ci with quantity := min (existingItem.quantity + g.quantity) 99 },
            List.mem_map.mpr ⟨ci, hci, by simp [hid]⟩, rfl, rfl⟩
        · exact ⟨ci, List.mem_map.mpr ⟨ci, hci, by simp [hid]⟩, rfl, rfl⟩
      · exact ⟨ci, List.mem_append_left _ hci, rfl, rfl⟩

/-- The merge fold keeps every cart item present, with its id and product
id unchanged. -/
theorem mergeFold_preserves (products : List Product) (snapshot : List CartItem)
    (cartId : String) :
    ∀ (gs : List GuestItem) (n : Nat) (items : List CartItem),
      ∀ ci ∈ items, ∃ ci' ∈ mergeFold products snapshot cartId n gs items,
        ci'.id = ci.id ∧ ci'.productId = ci.productId := by
  intro gs
  induction gs with
  | nil =>
    intro n items ci hci
    exact ⟨ci, hci, rfl, rfl⟩
  | cons g rest ih =>
    intro n items ci hci
    obtain ⟨ci'', hmem'', hid'', hpid''⟩ :=
      mergeGuestItem_preserves products snapshot cartId (mergeItemId cartId n) g items ci hci
    obtain ⟨ci', hmem', hid', hpid'⟩ :=
      ih (n + 1) (mergeGuestItem products snapshot cartId (mergeItemId cartId n) g items)
        ci'' hmem''
    exact ⟨ci', hmem', hid'.trans hid'', hpid'.trans hpid''⟩

/-- C9: in every cart-merge request, an incoming pair that fails
validation or whose product is missing, inactive or out of stock is
skipped without affecting the items and without failing the merge; a pair
matching a cart item of the transaction's snapshot updates that item's
quantity to `min(snapshot quantity + incoming, 99)`; any other valid pair
inserts a new cart item; and the whole merge never deletes a cart item or
changes the product a cart row points at. -/
theorem cartMerge_behavior :
    (∀ (products : List Product) (snapshot : List CartItem) (cartId newId : String)
       (g : GuestItem) (items : List CartItem),
      (validProductId g.productId && validQuantity g.quantity) = false →
      mergeGuestItem products snapshot cartId newId g items = items) ∧
    (∀ (products : List Product) (snapshot : List CartItem) (cartId newId : String)
       (g : GuestItem) (items : List CartItem),
      products.find? (fun p => p.id == g.productId && p.isActive && 0 < p.stock) = none →
      mergeGuestItem products snapshot cartId newId g items = items) ∧
    (∀ (products : List Product) (snapshot : List CartItem) (cartId newId : String)
       (g : GuestItem) (items : List CartItem) (product : Product)
       (existingItem : CartItem),
      (validProductId g.productId && validQuantity g.quantity) = true →
      products.find? (fun p => p.id == g.productId && p.isActive && 0 < p.stock) =
        some product →
      snapshot.find? (fun item => item.productId == g.productId) = some existingItem →
      mergeGuestItem products snapshot cartId newId g items =
        items.map (fun item =>
          if item.id == existingItem.id then
            { item with quantity := min (existingItem.quantity + g.quantity) 99 }
          else item)) ∧
    (∀ (products : List Product) (snapshot : List CartItem) (cartId newId : String)
       (g : GuestItem) (items : List CartItem) (product : Product),
      (validProductId g.productId && validQuantity g.quantity) = true →
      products.find? (fun p => p.id == g.productId && p.isActive && 0 < p.stock) =
        some product →
      snapshot.find? (fun item => item.productId == g.productId) = none →
      mergeGuestItem products snapshot cartId newId g items =
        items ++ [{ id := newId, cartId := cartId, productId := g.productId,
                    quantity := g.quantity }]) ∧
    (∀ (db : DB) (userId : String) (guestItems : List GuestItem),
      ∀ ci ∈ db.cartItems, ∃ ci' ∈ (mergeCart db userId guestItems).cartItems,
        ci'.id = ci.id ∧ ci'.productId = ci.productId) := by
  refine ⟨?_, ?_, ?_, ?_, ?_⟩
  · intro products snapshot cartId newId g items hv
    unfold mergeGuestItem
    simp [hv]
  · intro products snapshot cartId newId g items hfind
    unfold mergeGuestItem
    by_cases hv : (validProductId g.productId && validQuantity g.quantity) = true
    · simp [hv, hfind]
    · simp [hv]
  · intro products snapshot cartId newId g items product existingItem hv hfind hsnap
    unfold mergeGuestItem
    simp [hv, hfind, hsnap]
  · intro products snapshot cartId newId g items product hv hfind hsnap
    unfold mergeGuestItem
    simp [hv, hfind, hsnap]
  · intro db userId guestItems ci hci
    unfold mergeCart
    split
    · exact mergeFold_preserves _ _ _ guestItems 0 db.cartItems ci hci
    · exact mergeFold_preserves _ _ _ guestItems 0 db.cartItems ci hci

/-- Witness for C9 on concrete data: an invalid product id is skipped, a
pair matching the snapshot raises the tea cart item to
`min(2 + 50, 99) = 52`, a fresh pair appends a coffee cart item, and the
pre-merge cart item survives a full merge with id and product intact. -/
theorem cartMerge_behavior_witness :
    mergeGuestItem [teaProduct, coffeeProduct] [teaCartItem] "c1" "n0"
        { productId := "", quantity := 3 } [teaCartItem] = [teaCartItem] ∧
    mergeGuestItem [teaProduct, coffeeProduct] [teaCartItem] "c1" "n0"
        { productId := "ghost", quantity := 3 } [teaCartItem] = [teaCartItem] ∧
    mergeGuestItem [teaProduct, coffeeProduct] [teaCartItem] "c1" "n0"
        { productId := "p1", quantity := 50 } [teaCartItem] =
      [{ teaCartItem with quantity := 52 }] ∧
    mergeGuestItem [teaProduct, coffeeProduct] [teaCartItem] "c1" "n0"
        { productId := "p2", quantity := 3 } [teaCartItem] =
      [teaCartItem, { id := "n0", cartId := "c1", productId := "p2", quantity := 3 }] ∧
    ∃ ci' ∈ (mergeCart dbPending "u1"
        [{ productId := "p1", quantity := 50 }]).cartItems,
      ci'.id = teaCartItem.id ∧ ci'.productId = teaCartItem.productId := by
  refine ⟨?_, ?_, ?_, ?_, ?_⟩
  · exact cartMerge_behavior.1 [teaProduct, coffeeProduct] [teaCartItem] "c1" "n0"
      { productId := "", quantity := 3 } [teaCartItem] (by decide)
  · exact cartMerge_behavior.2.1 [teaProduct, coffeeProduct] [teaCartItem] "c1" "n0"
      { productId := "ghost", quantity := 3 } [teaCartItem] (by decide)
  · have h := cartMerge_behavior.2.2.1 [teaProduct, coffeeProduct] [teaCartItem] "c1" "n0"
      { productId := "p1", quantity := 50 } [teaCartItem] teaProduct teaCartItem
      (by decide) (by decide) (by decide)
    rw [h]
    decide
  · have h := cartMerge_behavior.2.2.2.1 [teaProduct, coffeeProduct] [teaCartItem] "c1" "n0"
      { productId := "p2", quantity := 3 } [teaCartItem] coffeeProduct
      (by decide) (by decide) (by decide)
    rw [h]
    decide
  · exact cartMerge_behavior.2.2.2.2 dbPending "u1"
      [{ productId := "p1", quantity := 50 }] teaCartItem (by decide)

end OrganicStore
